import Mathlib

/-!
Shallow embedding of the ISP back-office billing core
(`src/pages/invoices/*.js`, `src/pages/customers/customers.model.js`).

Modelling conventions:
* MongoDB ObjectIds are `Nat`; the store assigns them from a counter
  (`Ledger.nextId`), which models Mongo's opaque unique id assignment.
* Dates are opaque strings (the code only stores and forwards them).
* JavaScript falsiness of a request-body string field is `none` or `""`
  (`isFalsyStr`); of a numeric field, `none` or `0` (`isFalsyNum`).
* A Mongoose unique index on `invoiceNumber` makes `Invoice.create` fail
  with a duplicate-key error exactly when the number is already stored.
* `populate("customerId", ...)` with `.lean()` resolves the reference to
  the customer document, or to `null` (here `none`) when the referenced
  customer no longer exists.
-/

namespace Billing

/-- Invoice `status` enumeration (`invoices.model.js`, `InvoiceSchema.status`). -/
inductive Status where
  | Pending
  | Paid
  | Overdue
deriving DecidableEq, Repr

/-- An invoice document (`invoices.model.js`, `InvoiceSchema`). -/
structure Invoice where
  _id : Nat
  customerId : Nat
  invoiceNumber : String
  amount : Int
  billingPeriod : String
  dueDate : String
  status : Status
  paymentDate : Option String
  paymentMethod : Option String
  notes : Option String
deriving DecidableEq, Repr

/-- The invoice collection: stored documents in insertion order, plus the
counter from which Mongo-style fresh `_id`s are assigned. -/
structure Ledger where
  invoices : List Invoice
  nextId : Nat
deriving DecidableEq, Repr

/-- The data object passed to `createInvoice` (`invoices.model.js`). -/
structure InvoiceData where
  customerId : Nat
  invoiceNumber : String
  amount : Int
  billingPeriod : String
  dueDate : String
  status : Status
deriving DecidableEq, Repr

/-- Does some stored invoice already carry this invoice number?
This is what the unique index on `invoiceNumber` checks at insert time. -/
def hasInvoiceNumber (invs : List Invoice) (num : String) : Bool :=
  invs.any (fun i => i.invoiceNumber == num)

/-- `createInvoice(data)` (`invoices.model.js`): `Invoice.create(data)`.
The unique index on `invoiceNumber` makes insertion fail with a
duplicate-key error (Mongo code 11000) when the number already exists;
otherwise the document is stored with a fresh `_id`. -/
def storedInvoice (id : Nat) (d : InvoiceData) : Invoice :=
  { _id := id
    customerId := d.customerId
    invoiceNumber := d.invoiceNumber
    amount := d.amount
    billingPeriod := d.billingPeriod
    dueDate := d.dueDate
    status := d.status
    paymentDate := none
    paymentMethod := none
    notes := none }

def createInvoice (l : Ledger) (d : InvoiceData) : Except Unit (Ledger × Invoice) :=
  if hasInvoiceNumber l.invoices d.invoiceNumber then
    Except.error ()
  else
    let inv := storedInvoice l.nextId d
    Except.ok ({ invoices := l.invoices ++ [inv], nextId := l.nextId + 1 }, inv)

/-- A customer document (`customers.model.js`, `CustomerSchema`). -/
structure Customer where
  _id : Nat
  fullName : String
  addressStreet : String
  addressCity : String
  addressZip : String
  landmark : Option String
  contactNumber : String
  email : String
  planType : String
  bandwidthMbps : Int
  monthlyFee : Int
  subscriptionStartDate : String
deriving DecidableEq, Repr

/-- One row of `PLAN_CONFIG` (`customers.model.js`). -/
structure PlanConfig where
  bandwidthMbps : Int
  monthlyFee : Int
deriving DecidableEq, Repr

/-- `PLAN_CONFIG` (`customers.model.js`): the fixed plan table; lookup of
any other key yields `undefined` (`none`). -/
def PLAN_CONFIG : String → Option PlanConfig
  | "Basic" => some { bandwidthMbps := 10, monthlyFee := 800 }
  | "Standard" => some { bandwidthMbps := 50, monthlyFee := 1100 }
  | "Premium" => some { bandwidthMbps := 100, monthlyFee := 1400 }
  | _ => none

/-- The `data` object handed to `createCustomer`/`updateCustomer`.
`bandwidthMbps`/`monthlyFee` model values a caller may have put in the
request body; the code never reads them. -/
structure CustomerInput where
  fullName : String
  addressStreet : String
  addressCity : String
  addressZip : String
  landmark : Option String
  contactNumber : String
  email : String
  planType : String
  bandwidthMbps : Option Int
  monthlyFee : Option Int
  subscriptionStartDate : String
deriving DecidableEq, Repr

/-- `createCustomer(data)` (`customers.model.js`): throws
`"Invalid plan type"` when `PLAN_CONFIG[data.planType]` is undefined,
else stores a customer whose `bandwidthMbps`/`monthlyFee` come from the
plan table. `newId` models the Mongo-assigned `_id`. -/
def createCustomer (newId : Nat) (data : CustomerInput) : Except String Customer :=
  match PLAN_CONFIG data.planType with
  | none => Except.error "Invalid plan type"
  | some plan =>
      Except.ok
        { _id := newId
          fullName := data.fullName
          addressStreet := data.addressStreet
          addressCity := data.addressCity
          addressZip := data.addressZip
          landmark := data.landmark
          contactNumber := data.contactNumber
          email := data.email
          planType := data.planType
          bandwidthMbps := plan.bandwidthMbps
          monthlyFee := plan.monthlyFee
          subscriptionStartDate := data.subscriptionStartDate }

/-- `updateCustomer(id, data)` (`customers.model.js`):
`findByIdAndUpdate(id, {...}, {new : true})` after the plan lookup; the
updated document (or `none` when `id` matches nothing) is returned. -/
def updateCustomer (customers : List Customer) (id : Nat) (data : CustomerInput) :
    Except String (List Customer × Option Customer) :=
  match PLAN_CONFIG data.planType with
  | none => Except.error "Invalid plan type"
  | some plan =>
      let upd : Customer → Customer := fun c =>
        if c._id == id then
          { c with
            fullName := data.fullName
            addressStreet := data.addressStreet
            addressCity := data.addressCity
            addressZip := data.addressZip
            landmark := data.landmark
            contactNumber := data.contactNumber
            email := data.email
            planType := data.planType
            bandwidthMbps := plan.bandwidthMbps
            monthlyFee := plan.monthlyFee
            subscriptionStartDate := data.subscriptionStartDate }
        else c
      let updated := customers.map upd
      Except.ok (updated, updated.find? (fun c => c._id == id))

/-- The `paymentMethod` enumeration of `InvoiceSchema` (`invoices.model.js`). -/
def validPaymentMethod (pm : String) : Bool :=
  pm == "Cash" || pm == "Bank Transfer" || pm == "Online Payment" || pm == "Other"

/-- The `paymentData` object handed to `updateInvoicePayment`. -/
structure PaymentData where
  paymentDate : Option String
  paymentMethod : String
  notes : Option String
deriving DecidableEq, Repr

/-- The per-document effect of the `findByIdAndUpdate` call inside
`updateInvoicePayment`: the document with the matching `_id` gets
`status : "Paid"` and the payment details; every other document is
untouched. -/
def applyPayment (id : Nat) (p : PaymentData) (now : String) (inv : Invoice) : Invoice :=
  if inv._id == id then
    { inv with
      status := Status.Paid
      paymentDate := some (p.paymentDate.getD now)
      paymentMethod := some p.paymentMethod
      notes := p.notes }
  else inv

/-- `updateInvoicePayment(id, paymentData)` (`invoices.model.js`):
`findByIdAndUpdate(id, {status : "Paid", paymentDate : paymentData.paymentDate
|| new Date(), paymentMethod, notes}, {new : true, runValidators : true})`.
`runValidators` rejects a `paymentMethod` outside the schema enumeration
(a Mongoose `ValidationError`, modelled as `Except.error`), in which case
nothing is written.  `now` models `new Date()`. -/
def updateInvoicePayment (l : Ledger) (id : Nat) (p : PaymentData) (now : String) :
    Except Unit (Ledger × Option Invoice) :=
  if !(validPaymentMethod p.paymentMethod) then
    Except.error ()
  else
    let updated := l.invoices.map (applyPayment id p now)
    Except.ok ({ l with invoices := updated }, updated.find? (fun inv => inv._id == id))

/-- `deleteInvoice(id)` (`invoices.model.js`): `findByIdAndDelete(id)`,
returning the deleted document or `none`. -/
def deleteInvoice (l : Ledger) (id : Nat) : Ledger × Option Invoice :=
  match l.invoices.find? (fun inv => inv._id == id) with
  | none => (l, none)
  | some inv =>
      ({ l with invoices := l.invoices.filter (fun i => !(i._id == id)) }, some inv)

/-- JavaScript falsiness of an optional request-body string: absent or `""`. -/
def isFalsyStr : Option String → Bool
  | none => true
  | some s => s == ""

/-- JavaScript falsiness of an optional request-body number: absent or `0`. -/
def isFalsyNum : Option Int → Bool
  | none => true
  | some n => n == 0

/-- Response of the `recordPayment` controller (`invoices.controller.js`). -/
inductive PayResponse where
  | badRequest (error : String)
  | notFound (error : String)
  | payOk (invoice : Invoice)
  | serverError (error : String)
deriving DecidableEq, Repr

/-- HTTP status of a `PayResponse`; `res.json` without `res.status` is 200. -/
def payStatusCode : PayResponse → Nat
  | PayResponse.badRequest _ => 400
  | PayResponse.notFound _ => 404
  | PayResponse.payOk _ => 200
  | PayResponse.serverError _ => 500

/-- `recordPayment` controller (`invoices.controller.js`): 400 when
`paymentMethod` is falsy; otherwise calls `updateInvoicePayment` with
`paymentDate ? new Date(paymentDate) : new Date()`; a thrown error is
caught as the generic 500; `null` from the model is 404. -/
def recordPayment (l : Ledger) (id : Nat)
    (paymentDate paymentMethod notes : Option String) (now : String) :
    PayResponse × Ledger :=
  if isFalsyStr paymentMethod then
    (PayResponse.badRequest "Payment method is required", l)
  else
    match updateInvoicePayment l id
        { paymentDate := some (if isFalsyStr paymentDate then now
            else paymentDate.getD now)
          paymentMethod := paymentMethod.getD ""
          notes := notes } now with
    | Except.error _ => (PayResponse.serverError "Failed to record payment", l)
    | Except.ok (l2, none) => (PayResponse.notFound "Invoice not found", l2)
    | Except.ok (l2, some inv) => (PayResponse.payOk inv, l2)

/-- Response of the `addInvoice` controller (`invoices.controller.js`). -/
inductive AddResponse where
  | badRequest (error : String)
  | addCreated (invoice : Invoice)
  | serverError (error : String)
deriving DecidableEq, Repr

/-- `addInvoice` controller (`invoices.controller.js`): 400 when a required
body field is falsy; creates a `Pending` invoice with a generated number;
a duplicate-key error (`err.code === 11000`) is surfaced as
400 "Invoice number already exists". `invoiceNumber` is the value produced
by `generateInvoiceNumber()` for this request. -/
def addInvoice (l : Ledger) (customerId : Option Nat) (amount : Option Int)
    (billingPeriod dueDate : Option String) (invoiceNumber : String) :
    AddResponse × Ledger :=
  if customerId.isNone || isFalsyNum amount || isFalsyStr billingPeriod
      || isFalsyStr dueDate then
    (AddResponse.badRequest "customerId, amount, billingPeriod, and dueDate are required", l)
  else
    match createInvoice l
        { customerId := customerId.getD 0
          invoiceNumber := invoiceNumber
          amount := amount.getD 0
          billingPeriod := billingPeriod.getD ""
          dueDate := dueDate.getD ""
          status := Status.Pending } with
    | Except.error _ => (AddResponse.badRequest "Invoice number already exists", l)
    | Except.ok (l2, inv) => (AddResponse.addCreated inv, l2)

/-- An invoice as returned by `listInvoices`: the document together with the
`populate("customerId", ...)` result, which is `none` when the referenced
customer no longer exists. -/
structure PopInvoice where
  inv : Invoice
  customer : Option Customer
deriving DecidableEq, Repr

/-- `populate("customerId", ...)` with `.lean()`: resolve the reference
against the customer collection. -/
def populateInvoice (customers : List Customer) (inv : Invoice) : PopInvoice :=
  { inv := inv, customer := customers.find? (fun c => c._id == inv.customerId) }

/-- `listInvoices()` (`invoices.model.js`): all invoices, customer populated,
sorted newest-created-first (reverse insertion order, since `_id`s and
`createdAt` both increase with insertion). -/
def listInvoices (customers : List Customer) (l : Ledger) : List PopInvoice :=
  l.invoices.reverse.map (populateInvoice customers)

/-- The body of the `.map` at `invoices.controller.js:208`:
`inv.customerId._id?.toString() || inv.customerId.toString()`.  When
`populate` produced `null` (orphaned reference), the member access
`inv.customerId._id` throws a `TypeError` before the optional chaining
applies — modelled as `Except.error`. -/
def extractCustomerId (pi : PopInvoice) : Except Unit Nat :=
  match pi.customer with
  | some c => Except.ok c._id
  | none => Except.error ()

/-- JavaScript `Array.prototype.map` with a body that can throw: the first
throwing element aborts the whole map. -/
def mapCustomerIds : List PopInvoice → Except Unit (List Nat)
  | [] => Except.ok []
  | pi :: rest =>
      match extractCustomerId pi with
      | Except.error e => Except.error e
      | Except.ok i =>
          match mapCustomerIds rest with
          | Except.error e => Except.error e
          | Except.ok ids => Except.ok (i :: ids)

/-- `existingCustomerIds` (`invoices.controller.js:203`): ids of customers
that already have an invoice with this `billingPeriod` and status
`Pending`. -/
def existingCustomerIds (invs : List PopInvoice) (billingPeriod : String) :
    Except Unit (List Nat) :=
  mapCustomerIds (invs.filter (fun pi =>
    pi.inv.billingPeriod == billingPeriod && pi.inv.status == Status.Pending))

/-- `invoicesToCreate` (`invoices.controller.js:213`): customers with no
blocking invoice. -/
def invoicesToCreate (customers : List Customer) (existingIds : List Nat) :
    List Customer :=
  customers.filter (fun c => !(existingIds.contains c._id))

/-- The data object built for one customer inside the generation loop
(`invoices.controller.js:234`). -/
def monthlyInvoiceData (c : Customer) (num : String) (billingPeriod dueDate : String) :
    InvoiceData :=
  { customerId := c._id
    invoiceNumber := num
    amount := c.monthlyFee
    billingPeriod := billingPeriod
    dueDate := dueDate
    status := Status.Pending }

/-- The `for (const customer of invoicesToCreate)` loop
(`invoices.controller.js:228-251`): each customer is paired with the
invoice number generated for it; a failing `createInvoice` is caught and
the loop continues.  Returns the final store and `createdInvoices`. -/
def runBatch (l : Ledger) (items : List (Customer × String)) (billingPeriod dueDate : String) :
    Ledger × List Invoice :=
  match items with
  | [] => (l, [])
  | (c, num) :: rest =>
      match createInvoice l (monthlyInvoiceData c num billingPeriod dueDate) with
      | Except.ok (l2, inv) =>
          let r := runBatch l2 rest billingPeriod dueDate
          (r.1, inv :: r.2)
      | Except.error _ => runBatch l rest billingPeriod dueDate

/-- Number of per-customer issuance attempts inside one batch that fail
(caught by the inner `catch` of the loop). -/
def failCount (l : Ledger) (items : List (Customer × String)) (billingPeriod dueDate : String) :
    Nat :=
  match items with
  | [] => 0
  | (c, num) :: rest =>
      match createInvoice l (monthlyInvoiceData c num billingPeriod dueDate) with
      | Except.ok (l2, _) => failCount l2 rest billingPeriod dueDate
      | Except.error _ => failCount l rest billingPeriod dueDate + 1

/-- Response of the `generateMonthlyInvoices` controller
(`invoices.controller.js`). -/
inductive GenResponse where
  | badRequest (error : String)
  | allCovered (message : String) (created skipped : Nat)
  | batchDone (message : String) (created skipped : Nat) (invoices : List Invoice)
  | serverError (error : String)
deriving DecidableEq, Repr

/-- HTTP status of a `GenResponse`.  The early `return res.json({...})` for
the all-covered case carries no `res.status(...)`, so Express answers 200;
the batch summary is sent with `res.status(201)`. -/
def genStatusCode : GenResponse → Nat
  | GenResponse.badRequest _ => 400
  | GenResponse.allCovered _ _ _ => 200
  | GenResponse.batchDone _ _ _ _ => 201
  | GenResponse.serverError _ => 500

/-- Pair each customer of the loop with the invoice number
`generateInvoiceNumber()` yields for it (`numGen i` is the value returned
on the `i`-th call of this request). -/
def batchItems (toCreate : List Customer) (numGen : Nat → String) :
    List (Customer × String) :=
  toCreate.enum.map (fun p => (p.2, numGen p.1))

/-- `generateMonthlyInvoices` controller (`invoices.controller.js:175-265`).
`numGen i` is the value `generateInvoiceNumber()` returns on the `i`-th
call of this request.  An uncaught throw (the orphaned-reference
`TypeError` while building `existingCustomerIds`) reaches the outer
`catch` and becomes the generic 500. -/
def generateMonthlyInvoices (billingPeriod dueDate : Option String)
    (customers : List Customer) (l : Ledger) (numGen : Nat → String) :
    GenResponse × Ledger :=
  if isFalsyStr billingPeriod || isFalsyStr dueDate then
    (GenResponse.badRequest "billingPeriod and dueDate are required", l)
  else
    let period := billingPeriod.getD ""
    let due := dueDate.getD ""
    if customers.length == 0 then
      (GenResponse.badRequest "No customers found", l)
    else
      match existingCustomerIds (listInvoices customers l) period with
      | Except.error _ =>
          (GenResponse.serverError "Failed to generate monthly invoices", l)
      | Except.ok ids =>
          let toCreate := invoicesToCreate customers ids
          if toCreate.length == 0 then
            (GenResponse.allCovered
              "All customers already have invoices for this billing period"
              0 customers.length, l)
          else
            let r := runBatch l (batchItems toCreate numGen) period due
            (GenResponse.batchDone
              ("Successfully created " ++ toString r.2.length ++ " invoices")
              r.2.length (customers.length - r.2.length) r.2, r.1)

/-! ### Concrete fixtures (sample data for closed evaluations) -/

def sampleCustomerA : Customer :=
  { _id := 1, fullName := "Alice", addressStreet := "1 Main St", addressCity := "Cebu",
    addressZip := "6000", landmark := none, contactNumber := "0917", email := "alice@example.com",
    planType := "Basic", bandwidthMbps := 10, monthlyFee := 800,
    subscriptionStartDate := "2023-12-01" }

def sampleCustomerB : Customer :=
  { sampleCustomerA with
    _id := 2
    fullName := "Bob"
    email := "bob@example.com"
    planType := "Standard"
    bandwidthMbps := 50
    monthlyFee := 1100 }

def sampleNumGen : Nat → String := fun i => "INV-202401-000" ++ toString i

def emptyLedger : Ledger := { invoices := [], nextId := 0 }

def pendingInvoiceA : Invoice :=
  { _id := 100, customerId := 1, invoiceNumber := "INV-202312-0001", amount := 800,
    billingPeriod := "2024-01", dueDate := "2024-01-31", status := Status.Pending,
    paymentDate := none, paymentMethod := none, notes := none }

def orphanPendingInvoice : Invoice :=
  { pendingInvoiceA with
    _id := 101
    customerId := 77
    invoiceNumber := "INV-202312-0002" }

def ledgerPendingA : Ledger := { invoices := [pendingInvoiceA], nextId := 102 }

def ledgerOrphan : Ledger := { invoices := [orphanPendingInvoice], nextId := 102 }

def paidInvoiceA : Invoice :=
  { pendingInvoiceA with
    status := Status.Paid
    paymentDate := some "2024-02-01"
    paymentMethod := some "Cash"
    notes := some "ok" }

def ledgerPaidA : Ledger := { invoices := [paidInvoiceA], nextId := 102 }

def sampleInput : CustomerInput :=
  { fullName := "Alice", addressStreet := "1 Main St", addressCity := "Cebu",
    addressZip := "6000", landmark := none, contactNumber := "0917",
    email := "alice@example.com", planType := "Basic", bandwidthMbps := some 999,
    monthlyFee := some 1, subscriptionStartDate := "2023-12-01" }

/-! ### Helper lemmas -/

theorem batchItems_map_fst (toCreate : List Customer) (numGen : Nat → String) :
    (batchItems toCreate numGen).map Prod.fst = toCreate := by
  simp only [batchItems, List.map_map]
  have : (Prod.fst ∘ fun p : Nat × Customer => (p.2, numGen p.1)) = Prod.snd := rfl
  rw [this, List.enum_map_snd]

theorem batchItems_map_snd (toCreate : List Customer) (numGen : Nat → String) :
    (batchItems toCreate numGen).map Prod.snd =
      (List.range toCreate.length).map numGen := by
  simp only [batchItems, List.map_map]
  have : (Prod.snd ∘ fun p : Nat × Customer => (p.2, numGen p.1)) =
      (numGen ∘ Prod.fst) := rfl
  rw [this, ← List.map_map, List.enum_map_fst]

theorem batchItems_length (toCreate : List Customer) (numGen : Nat → String) :
    (batchItems toCreate numGen).length = toCreate.length := by
  simp [batchItems]

theorem batchItems_snd_nodup (toCreate : List Customer) (numGen : Nat → String)
    (hinj : ∀ i j, i < toCreate.length → j < toCreate.length →
      numGen i = numGen j → i = j) :
    ((batchItems toCreate numGen).map Prod.snd).Nodup := by
  rw [batchItems_map_snd]
  refine List.Nodup.map_on ?_ (List.nodup_range _)
  intro i hi j hj hij
  exact hinj i j (List.mem_range.mp hi) (List.mem_range.mp hj) hij

theorem batchItems_fresh (toCreate : List Customer) (numGen : Nat → String)
    (invs : List Invoice)
    (h : ∀ i, hasInvoiceNumber invs (numGen i) = false) :
    ∀ it ∈ batchItems toCreate numGen, hasInvoiceNumber invs it.2 = false := by
  intro it hit
  simp only [batchItems, List.mem_map] at hit
  obtain ⟨p, _, rfl⟩ := hit
  exact h p.1

theorem mapCustomerIds_ok_of_all (xs : List PopInvoice)
    (h : ∀ pi ∈ xs, ∃ i, extractCustomerId pi = Except.ok i) :
    ∃ ids, mapCustomerIds xs = Except.ok ids := by
  induction xs with
  | nil => exact ⟨[], rfl⟩
  | cons pi rest ih =>
      obtain ⟨i, hi⟩ := h pi (List.mem_cons_self _ _)
      obtain ⟨ids, hids⟩ := ih (fun q hq => h q (List.mem_cons_of_mem _ hq))
      exact ⟨i :: ids, by simp [mapCustomerIds, hi, hids]⟩

theorem mapCustomerIds_error_of_mem (xs : List PopInvoice) (pi : PopInvoice)
    (hm : pi ∈ xs) (h : extractCustomerId pi = Except.error ()) :
    mapCustomerIds xs = Except.error () := by
  induction xs with
  | nil => cases hm
  | cons q rest ih =>
      rcases List.mem_cons.mp hm with hq | hq
      · subst hq
        simp [mapCustomerIds, h]
      · cases hq' : extractCustomerId q with
        | error e => cases e; simp [mapCustomerIds, hq']
        | ok i => simp [mapCustomerIds, hq', ih hq]

theorem mapCustomerIds_mem_ok {xs : List PopInvoice} {ids : List Nat}
    (h : mapCustomerIds xs = Except.ok ids) :
    ∀ i ∈ ids, ∃ pi ∈ xs, extractCustomerId pi = Except.ok i := by
  induction xs generalizing ids with
  | nil =>
      simp [mapCustomerIds] at h
      subst h
      intro i hi
      cases hi
  | cons q rest ih =>
      intro i hi
      cases hq : extractCustomerId q with
      | error e => simp [mapCustomerIds, hq] at h
      | ok j =>
          cases hr : mapCustomerIds rest with
          | error e => simp [mapCustomerIds, hq, hr] at h
          | ok js =>
              simp [mapCustomerIds, hq, hr] at h
              subst h
              rcases List.mem_cons.mp hi with hij | hij
              · exact ⟨q, List.mem_cons_self _ _, by rw [hq, hij]⟩
              · obtain ⟨pi, hpi, hepi⟩ := ih hr i hij
                exact ⟨pi, List.mem_cons_of_mem _ hpi, hepi⟩

theorem mapCustomerIds_ok_mem {xs : List PopInvoice} {ids : List Nat}
    (h : mapCustomerIds xs = Except.ok ids) :
    ∀ pi ∈ xs, ∃ i ∈ ids, extractCustomerId pi = Except.ok i := by
  induction xs generalizing ids with
  | nil =>
      intro pi hpi
      cases hpi
  | cons q rest ih =>
      intro pi hpi
      cases hq : extractCustomerId q with
      | error e => simp [mapCustomerIds, hq] at h
      | ok j =>
          cases hr : mapCustomerIds rest with
          | error e => simp [mapCustomerIds, hq, hr] at h
          | ok js =>
              simp [mapCustomerIds, hq, hr] at h
              subst h
              rcases List.mem_cons.mp hpi with hp | hp
              · exact ⟨j, List.mem_cons_self _ _, by rw [hp, hq]⟩
              · obtain ⟨i, hi, hei⟩ := ih hr pi hp
                exact ⟨i, List.mem_cons_of_mem _ hi, hei⟩

/-- Membership in the populated newest-first listing, unfolded. -/
theorem mem_listInvoices {customers : List Customer} {l : Ledger} {pi : PopInvoice} :
    pi ∈ listInvoices customers l ↔
      ∃ inv ∈ l.invoices, pi = populateInvoice customers inv := by
  simp only [listInvoices, List.mem_map, List.mem_reverse]
  constructor
  · rintro ⟨inv, hm, rfl⟩
    exact ⟨inv, hm, rfl⟩
  · rintro ⟨inv, hm, rfl⟩
    exact ⟨inv, hm, rfl⟩

/-- A customer id is in the already-invoiced set iff some stored invoice is
`Pending` for the period and references that customer (the customer being
present in the directory makes `populate` resolve). -/
theorem blocked_iff {customers : List Customer} {l : Ledger} {period : String}
    {ids : List Nat}
    (h : existingCustomerIds (listInvoices customers l) period = Except.ok ids)
    (c : Customer) (hc : c ∈ customers) :
    c._id ∈ ids ↔
      ∃ inv ∈ l.invoices,
        inv.billingPeriod = period ∧ inv.status = Status.Pending ∧
        inv.customerId = c._id := by
  unfold existingCustomerIds at h
  constructor
  · intro hmem
    obtain ⟨pi, hpi, hext⟩ := mapCustomerIds_mem_ok h c._id hmem
    rw [List.mem_filter] at hpi
    obtain ⟨hlist, hpred⟩ := hpi
    obtain ⟨inv, hinv, rfl⟩ := mem_listInvoices.mp hlist
    simp only [populateInvoice, Bool.and_eq_true, beq_iff_eq] at hpred hext
    cases hfind : List.find? (fun cu => cu._id == inv.customerId) customers with
    | none => rw [hfind] at hext; cases hext
    | some cu =>
        rw [hfind] at hext
        have hcu : cu._id = inv.customerId := by
          have := List.find?_some hfind
          exact beq_iff_eq.mp this
        simp only [extractCustomerId, Except.ok.injEq] at hext
        exact ⟨inv, hinv, hpred.1, hpred.2, by rw [← hcu, hext]⟩
  · rintro ⟨inv, hinv, hper, hstat, hcid⟩
    have hlist : populateInvoice customers inv ∈ listInvoices customers l :=
      mem_listInvoices.mpr ⟨inv, hinv, rfl⟩
    have hpred : (inv.billingPeriod == period && (inv.status == Status.Pending : Bool)) = true := by
      simp [hper, hstat]
    have hfilt : populateInvoice customers inv ∈
        (listInvoices customers l).filter (fun pi =>
          pi.inv.billingPeriod == period && pi.inv.status == Status.Pending) :=
      List.mem_filter.mpr ⟨hlist, hpred⟩
    cases hfind : List.find? (fun cu => cu._id == inv.customerId) customers with
    | none =>
        exfalso
        have := List.find?_eq_none.mp hfind c hc
        simp [hcid] at this
    | some cu =>
        have hcu' := List.find?_some hfind
        have hcu : cu._id = inv.customerId := beq_iff_eq.mp hcu'
        obtain ⟨i, hi, hext⟩ := mapCustomerIds_ok_mem h _ hfilt
        simp only [populateInvoice, hfind, extractCustomerId, Except.ok.injEq] at hext
        rw [← hext, hcu, hcid] at hi
        exact hi

theorem runBatch_append (xs ys : List (Customer × String)) (p d : String) :
    ∀ l : Ledger,
      runBatch l (xs ++ ys) p d =
        ((runBatch (runBatch l xs p d).1 ys p d).1,
          (runBatch l xs p d).2 ++ (runBatch (runBatch l xs p d).1 ys p d).2) := by
  induction xs with
  | nil => intro l; simp [runBatch]
  | cons hd' tl ih =>
      intro l
      obtain ⟨c, num⟩ := hd'
      cases hcr : createInvoice l (monthlyInvoiceData c num p d) with
      | ok r => simp [runBatch, hcr, ih r.1]
      | error e => simp [runBatch, hcr, ih l]

theorem runBatch_created_add_failCount (items : List (Customer × String)) (p d : String) :
    ∀ l : Ledger,
      (runBatch l items p d).2.length + failCount l items p d = items.length := by
  induction items with
  | nil => intro l; simp [runBatch, failCount]
  | cons hd' tl ih =>
      intro l
      obtain ⟨c, num⟩ := hd'
      cases hcr : createInvoice l (monthlyInvoiceData c num p d) with
      | ok r =>
          simp only [runBatch, failCount, hcr, List.length_cons]
          have := ih r.1
          omega
      | error e =>
          simp only [runBatch, failCount, hcr, List.length_cons]
          have := ih l
          omega

theorem hasInvoiceNumber_append (a b : List Invoice) (n : String) :
    hasInvoiceNumber (a ++ b) n = (hasInvoiceNumber a n || hasInvoiceNumber b n) := by
  simp [hasInvoiceNumber, List.any_append]

/-- `createInvoice` on a fresh number inserts the stored document. -/
theorem createInvoice_ok {l : Ledger} {d : InvoiceData}
    (h : hasInvoiceNumber l.invoices d.invoiceNumber = false) :
    createInvoice l d =
      Except.ok
        ({ invoices := l.invoices ++ [storedInvoice l.nextId d], nextId := l.nextId + 1 },
          storedInvoice l.nextId d) := by
  simp [createInvoice, h]

/-- When every generated number is fresh for the store and the numbers are
pairwise distinct, every issuance in the batch succeeds: the created list
matches the customer/number pairs one-to-one and the final store is the old
store with exactly the created invoices appended. -/
theorem runBatch_fresh (p d : String) :
    ∀ (items : List (Customer × String)) (l : Ledger),
      (items.map Prod.snd).Nodup →
      (∀ it ∈ items, hasInvoiceNumber l.invoices it.2 = false) →
      (runBatch l items p d).1.invoices = l.invoices ++ (runBatch l items p d).2 ∧
      List.Forall₂ (fun (it : Customer × String) (inv : Invoice) =>
          inv.customerId = it.1._id ∧ inv.invoiceNumber = it.2 ∧
          inv.amount = it.1.monthlyFee ∧ inv.billingPeriod = p ∧
          inv.dueDate = d ∧ inv.status = Status.Pending)
        items (runBatch l items p d).2 := by
  intro items
  induction items with
  | nil =>
      intro l _ _
      exact ⟨by simp [runBatch], List.Forall₂.nil⟩
  | cons hd' tl ih =>
      intro l hnd hfresh
      obtain ⟨c, num⟩ := hd'
      have hnum : hasInvoiceNumber l.invoices (monthlyInvoiceData c num p d).invoiceNumber = false :=
        hfresh (c, num) (List.mem_cons_self _ _)
      have hcr := createInvoice_ok hnum
      have hnd' : (tl.map Prod.snd).Nodup := (List.nodup_cons.mp hnd).2
      have hnotmem : num ∉ tl.map Prod.snd := (List.nodup_cons.mp hnd).1
      have hfresh' : ∀ it ∈ tl,
          hasInvoiceNumber
            (l.invoices ++ [storedInvoice l.nextId (monthlyInvoiceData c num p d)])
            it.2 = false := by
        intro it hit
        have h1 : hasInvoiceNumber l.invoices it.2 = false :=
          hfresh it (List.mem_cons_of_mem _ hit)
        have h2 : (num == it.2) = false := by
          rcases h : (num == it.2) with _ | _
          · rfl
          · exact absurd (beq_iff_eq.mp h ▸ List.mem_map_of_mem Prod.snd hit) hnotmem
        rw [hasInvoiceNumber_append, h1]
        simpa [hasInvoiceNumber, storedInvoice, monthlyInvoiceData] using h2
      obtain ⟨ihstore, ihrel⟩ :=
        ih { invoices := l.invoices ++ [storedInvoice l.nextId (monthlyInvoiceData c num p d)],
             nextId := l.nextId + 1 } hnd' hfresh'
      constructor
      · simp only [runBatch, hcr]
        rw [ihstore]
        simp
      · simp only [runBatch, hcr]
        exact List.Forall₂.cons ⟨rfl, rfl, rfl, rfl, rfl, rfl⟩ ihrel

/-- Once the request fields are present, the roster non-empty, and the
already-invoiced set computed without a thrown `TypeError`, the generator
either answers "all covered" (200, store untouched) or runs the batch and
answers 201 with its tallies. -/
theorem generate_eq_of_ok (period due : String) (customers : List Customer)
    (l : Ledger) (numGen : Nat → String) (ids : List Nat)
    (hp : period ≠ "") (hd : due ≠ "") (hne : customers ≠ [])
    (hids : existingCustomerIds (listInvoices customers l) period = Except.ok ids) :
    generateMonthlyInvoices (some period) (some due) customers l numGen =
      if (invoicesToCreate customers ids).length = 0 then
        (GenResponse.allCovered
          "All customers already have invoices for this billing period"
          0 customers.length, l)
      else
        (GenResponse.batchDone
          ("Successfully created " ++
            toString (runBatch l (batchItems (invoicesToCreate customers ids) numGen)
              period due).2.length ++ " invoices")
          (runBatch l (batchItems (invoicesToCreate customers ids) numGen)
            period due).2.length
          (customers.length -
            (runBatch l (batchItems (invoicesToCreate customers ids) numGen)
              period due).2.length)
          (runBatch l (batchItems (invoicesToCreate customers ids) numGen) period due).2,
          (runBatch l (batchItems (invoicesToCreate customers ids) numGen) period due).1) := by
  have hpb : (period == "") = false := beq_eq_false_iff_ne.mpr hp
  have hdb : (due == "") = false := beq_eq_false_iff_ne.mpr hd
  have hlen : (customers.length == 0) = false := by
    rw [beq_eq_false_iff_ne]
    intro hc
    exact hne (List.length_eq_zero.mp hc)
  simp only [generateMonthlyInvoices, isFalsyStr, hpb, hdb, Bool.or_self,
    Bool.false_or, Option.getD_some, hlen, hids, Bool.false_eq_true, if_false]
  rcases Nat.eq_zero_or_pos (invoicesToCreate customers ids).length with hz | hz
  · simp [hz]
  · have : ((invoicesToCreate customers ids).length == 0) = false := by
      rw [beq_eq_false_iff_ne]
      omega
    simp only [this, Bool.false_eq_true, if_false]
    rw [if_neg (by omega)]

theorem forall₂_mem_left {α β : Type _} {R : α → β → Prop}
    {xs : List α} {ys : List β} (h : List.Forall₂ R xs ys) :
    ∀ x ∈ xs, ∃ y ∈ ys, R x y := by
  induction h with
  | nil => intro x hx; cases hx
  | cons hr _ ih =>
      intro x hx
      rcases List.mem_cons.mp hx with rfl | hx
      · exact ⟨_, List.mem_cons_self _ _, hr⟩
      · obtain ⟨y, hy, hxy⟩ := ih x hx
        exact ⟨y, List.mem_cons_of_mem _ hy, hxy⟩

theorem forall₂_mem_right {α β : Type _} {R : α → β → Prop}
    {xs : List α} {ys : List β} (h : List.Forall₂ R xs ys) :
    ∀ y ∈ ys, ∃ x ∈ xs, R x y := by
  induction h with
  | nil => intro y hy; cases hy
  | cons hr _ ih =>
      intro y hy
      rcases List.mem_cons.mp hy with rfl | hy
      · exact ⟨_, List.mem_cons_self _ _, hr⟩
      · obtain ⟨x, hx, hxy⟩ := ih y hy
        exact ⟨x, List.mem_cons_of_mem _ hx, hxy⟩

theorem forall₂_enum_snd {α β : Type _} {S : α → β → Prop} {xs : List α} {ys : List β}
    (h : List.Forall₂ (fun (p : Nat × α) y => S p.2 y) xs.enum ys) :
    List.Forall₂ S xs ys := by
  have h2 := List.forall₂_map_left_iff.mpr h
  rwa [List.enum_map_snd] at h2

/-! ### Claims -/

/-- C1: for every non-empty customer roster and a ledger holding no prior
invoices, a `generateMonthlyInvoices(billingPeriod, dueDate)` call in which
no per-customer issuance fails (here: the generated invoice numbers are
pairwise distinct) creates exactly `|R|` invoices, each with `amount` equal
to that customer's `monthlyFee`, status `Pending`, and `billingPeriod`
equal to the requested period. -/
theorem C1_fresh_roster_generates_all
    (customers : List Customer) (period due : String) (numGen : Nat → String)
    (l : Ledger) (hl : l.invoices = []) (hne : customers ≠ [])
    (hp : period ≠ "") (hd : due ≠ "")
    (hinj : ∀ i j, i < customers.length → j < customers.length →
      numGen i = numGen j → i = j) :
    ∃ invs : List Invoice,
      (generateMonthlyInvoices (some period) (some due) customers l numGen).1 =
        GenResponse.batchDone
          ("Successfully created " ++ toString customers.length ++ " invoices")
          customers.length 0 invs ∧
      (generateMonthlyInvoices (some period) (some due) customers l numGen).2.invoices =
        l.invoices ++ invs ∧
      invs.length = customers.length ∧
      List.Forall₂ (fun (c : Customer) (inv : Invoice) =>
        inv.amount = c.monthlyFee ∧ inv.status = Status.Pending ∧
        inv.billingPeriod = period) customers invs := by
  have hids : existingCustomerIds (listInvoices customers l) period = Except.ok [] := by
    simp [existingCustomerIds, listInvoices, hl, mapCustomerIds]
  have htc : invoicesToCreate customers ([] : List Nat) = customers := by
    simp [invoicesToCreate]
  have hlen0 : customers.length ≠ 0 := fun hc => hne (List.length_eq_zero.mp hc)
  have hgen := generate_eq_of_ok period due customers l numGen [] hp hd hne hids
  rw [htc, if_neg hlen0] at hgen
  have hnodup := batchItems_snd_nodup customers numGen hinj
  have hfresh : ∀ it ∈ batchItems customers numGen,
      hasInvoiceNumber l.invoices it.2 = false :=
    batchItems_fresh customers numGen l.invoices
      (fun i => by simp [hl, hasInvoiceNumber])
  obtain ⟨hstore, hrel⟩ :=
    runBatch_fresh period due (batchItems customers numGen) l hnodup hfresh
  have hlen2 : (runBatch l (batchItems customers numGen) period due).2.length =
      customers.length := by
    rw [← hrel.length_eq, batchItems_length]
  refine ⟨(runBatch l (batchItems customers numGen) period due).2, ?_, ?_, hlen2, ?_⟩
  · rw [hgen, hlen2, Nat.sub_self]
  · rw [hgen]
    exact hstore
  · have h1 : List.Forall₂
        (fun (p : Nat × Customer) (inv : Invoice) =>
          inv.customerId = p.2._id ∧ inv.invoiceNumber = numGen p.1 ∧
          inv.amount = p.2.monthlyFee ∧ inv.billingPeriod = period ∧
          inv.dueDate = due ∧ inv.status = Status.Pending)
        customers.enum (runBatch l (batchItems customers numGen) period due).2 := by
      have := hrel
      unfold batchItems at this
      rw [List.forall₂_map_left_iff] at this
      exact this
    exact forall₂_enum_snd
      (h1.imp (fun p inv hpi => ⟨hpi.2.2.1, hpi.2.2.2.2.2, hpi.2.2.2.1⟩))

/-- C1 witness: the spec §8 example — roster of two customers with fees
800 and 1100, empty ledger, period "2024-01". -/
theorem C1_witness :
    ∃ invs : List Invoice,
      (generateMonthlyInvoices (some "2024-01") (some "2024-01-31")
        [sampleCustomerA, sampleCustomerB] emptyLedger sampleNumGen).1 =
        GenResponse.batchDone
          ("Successfully created " ++
            toString ([sampleCustomerA, sampleCustomerB] : List Customer).length
            ++ " invoices")
          ([sampleCustomerA, sampleCustomerB] : List Customer).length 0 invs ∧
      (generateMonthlyInvoices (some "2024-01") (some "2024-01-31")
        [sampleCustomerA, sampleCustomerB] emptyLedger sampleNumGen).2.invoices =
        emptyLedger.invoices ++ invs ∧
      invs.length = ([sampleCustomerA, sampleCustomerB] : List Customer).length ∧
      List.Forall₂ (fun (c : Customer) (inv : Invoice) =>
        inv.amount = c.monthlyFee ∧ inv.status = Status.Pending ∧
        inv.billingPeriod = "2024-01") [sampleCustomerA, sampleCustomerB] invs :=
  C1_fresh_roster_generates_all [sampleCustomerA, sampleCustomerB]
    "2024-01" "2024-01-31" sampleNumGen emptyLedger rfl
    (by decide) (by decide) (by decide)
    (by
      intro i j hi hj h
      have hi2 : i < 2 := by simpa using hi
      have hj2 : j < 2 := by simpa using hj
      interval_cases i <;> interval_cases j <;>
        first
        | rfl
        | (exfalso; revert h; decide))

/-- C2: a customer is excluded from issuance iff it already has an invoice
with the target `billingPeriod` and status `Pending`; a `Paid` or `Overdue`
invoice for the same period does not block re-issuance. -/
theorem C2_excluded_iff_pending_invoice
    (customers : List Customer) (l : Ledger) (period : String) (ids : List Nat)
    (c : Customer)
    (hids : existingCustomerIds (listInvoices customers l) period = Except.ok ids)
    (hc : c ∈ customers) :
    c ∉ invoicesToCreate customers ids ↔
      ∃ inv ∈ l.invoices,
        inv.billingPeriod = period ∧ inv.status = Status.Pending ∧
        inv.customerId = c._id := by
  rw [← blocked_iff hids c hc]
  unfold invoicesToCreate
  constructor
  · intro h
    by_contra hnm
    apply h
    refine List.mem_filter.mpr ⟨hc, ?_⟩
    simp [hnm]
  · intro hmem hfil
    have hpred := (List.mem_filter.mp hfil).2
    simp [hmem] at hpred

/-- C2 witness: customer 1 has a `Pending` invoice for "2024-01" and is
excluded; the already-invoiced id set for that ledger computes to `[1]`. -/
theorem C2_witness :
    sampleCustomerA ∉ invoicesToCreate [sampleCustomerA, sampleCustomerB] [1] ↔
      ∃ inv ∈ ledgerPendingA.invoices,
        inv.billingPeriod = "2024-01" ∧ inv.status = Status.Pending ∧
        inv.customerId = sampleCustomerA._id :=
  C2_excluded_iff_pending_invoice [sampleCustomerA, sampleCustomerB]
    ledgerPendingA "2024-01" [1] sampleCustomerA rfl (by decide)

/-- C3: a failing issuance inside one batch is isolated — every customer
contributes to exactly one of `created` and the failure count, a failing
item leaves the rest of the batch exactly as if the item were absent, and
the request still answers 201 with the tallies (no propagated error). -/
theorem C3_batch_failure_isolated :
    (∀ (l : Ledger) (p d : String) (items : List (Customer × String)),
      (runBatch l items p d).2.length + failCount l items p d = items.length) ∧
    (∀ (l : Ledger) (p d : String) (pre post : List (Customer × String))
        (c : Customer) (num : String),
      hasInvoiceNumber (runBatch l pre p d).1.invoices num = true →
      runBatch l (pre ++ (c, num) :: post) p d = runBatch l (pre ++ post) p d) ∧
    (∀ (period due : String) (customers : List Customer) (l : Ledger)
        (numGen : Nat → String) (ids : List Nat),
      period ≠ "" → due ≠ "" → customers ≠ [] →
      existingCustomerIds (listInvoices customers l) period = Except.ok ids →
      invoicesToCreate customers ids ≠ [] →
      (generateMonthlyInvoices (some period) (some due) customers l numGen).1 =
        GenResponse.batchDone
          ("Successfully created " ++
            toString (runBatch l (batchItems (invoicesToCreate customers ids) numGen)
              period due).2.length ++ " invoices")
          (runBatch l (batchItems (invoicesToCreate customers ids) numGen)
            period due).2.length
          (customers.length -
            (runBatch l (batchItems (invoicesToCreate customers ids) numGen)
              period due).2.length)
          (runBatch l (batchItems (invoicesToCreate customers ids) numGen)
            period due).2) := by
  refine ⟨?_, ?_, ?_⟩
  · intro l p d items
    exact runBatch_created_add_failCount items p d l
  · intro l p d pre post c num h
    rw [runBatch_append pre ((c, num) :: post) p d l,
        runBatch_append pre post p d l]
    have hfail : createInvoice (runBatch l pre p d).1 (monthlyInvoiceData c num p d) =
        Except.error () := by
      simp [createInvoice, monthlyInvoiceData, h]
    simp [runBatch, hfail]
  · intro period due customers l numGen ids hp hd hne hids htc
    have hlen : (invoicesToCreate customers ids).length ≠ 0 :=
      fun hz => htc (List.length_eq_zero.mp hz)
    have hgen := generate_eq_of_ok period due customers l numGen ids hp hd hne hids
    rw [if_neg hlen] at hgen
    rw [hgen]

/-- C3 witness: with "INV-202312-0001" already stored, the single batch
item generated under that number fails, is counted, and behaves as if
absent. -/
theorem C3_witness :
    (runBatch ledgerPendingA [(sampleCustomerB, "INV-202312-0001")]
        "2024-01" "2024-01-31").2.length +
      failCount ledgerPendingA [(sampleCustomerB, "INV-202312-0001")]
        "2024-01" "2024-01-31" = 1 ∧
    runBatch ledgerPendingA
        ([] ++ (sampleCustomerB, "INV-202312-0001") :: []) "2024-01" "2024-01-31" =
      runBatch ledgerPendingA ([] ++ []) "2024-01" "2024-01-31" :=
  ⟨C3_batch_failure_isolated.1 ledgerPendingA "2024-01" "2024-01-31" _,
    C3_batch_failure_isolated.2.1 ledgerPendingA "2024-01" "2024-01-31" [] []
      sampleCustomerB "INV-202312-0001" (by decide)⟩

/-- C4: running the generator twice in immediate succession — same period,
no intervening payment or deletion, and no issuance failure on the first
run (its generated numbers are fresh and pairwise distinct) — yields
`created = 0` and `skipped = |roster|` on the second call, which also
leaves the store untouched. -/
theorem C4_second_run_all_skipped
    (customers : List Customer) (l : Ledger) (period due : String)
    (numGen1 numGen2 : Nat → String) (ids : List Nat)
    (hp : period ≠ "") (hd : due ≠ "") (hne : customers ≠ [])
    (hids : existingCustomerIds (listInvoices customers l) period = Except.ok ids)
    (hfresh : ∀ i, hasInvoiceNumber l.invoices (numGen1 i) = false)
    (hinj : ∀ i j, i < customers.length → j < customers.length →
      numGen1 i = numGen1 j → i = j) :
    generateMonthlyInvoices (some period) (some due) customers
        (generateMonthlyInvoices (some period) (some due) customers l numGen1).2
        numGen2 =
      (GenResponse.allCovered
        "All customers already have invoices for this billing period"
        0 customers.length,
        (generateMonthlyInvoices (some period) (some due) customers l numGen1).2) := by
  have hgen1 := generate_eq_of_ok period due customers l numGen1 ids hp hd hne hids
  rcases Nat.eq_zero_or_pos (invoicesToCreate customers ids).length with hz | hpos
  · rw [if_pos hz] at hgen1
    have hgen2 := generate_eq_of_ok period due customers l numGen2 ids hp hd hne hids
    rw [if_pos hz] at hgen2
    rw [hgen1]
    exact hgen2
  · rw [if_neg (by omega)] at hgen1
    have hsub : (invoicesToCreate customers ids).length ≤ customers.length :=
      List.length_filter_le _ _
    have hinj' : ∀ i j, i < (invoicesToCreate customers ids).length →
        j < (invoicesToCreate customers ids).length → numGen1 i = numGen1 j → i = j :=
      fun i j hi hj => hinj i j (lt_of_lt_of_le hi hsub) (lt_of_lt_of_le hj hsub)
    have hnodup := batchItems_snd_nodup (invoicesToCreate customers ids) numGen1 hinj'
    have hfr := batchItems_fresh (invoicesToCreate customers ids) numGen1 l.invoices hfresh
    obtain ⟨hstore, hrel⟩ :=
      runBatch_fresh period due (batchItems (invoicesToCreate customers ids) numGen1)
        l hnodup hfr
    have hblocked : ∀ c ∈ customers,
        ∃ inv ∈ (runBatch l (batchItems (invoicesToCreate customers ids) numGen1)
            period due).1.invoices,
          inv.billingPeriod = period ∧ inv.status = Status.Pending ∧
          inv.customerId = c._id := by
      intro c hc
      by_cases hmem : c._id ∈ ids
      · obtain ⟨inv, hinv, hprop⟩ := (blocked_iff hids c hc).mp hmem
        exact ⟨inv, by rw [hstore]; exact List.mem_append_left _ hinv, hprop⟩
      · have hctc : c ∈ invoicesToCreate customers ids := by
          unfold invoicesToCreate
          refine List.mem_filter.mpr ⟨hc, ?_⟩
          simp [hmem]
        have hcin : c ∈ (batchItems (invoicesToCreate customers ids) numGen1).map
            Prod.fst := by
          rw [batchItems_map_fst]
          exact hctc
        obtain ⟨it, hit, hfst⟩ := List.mem_map.mp hcin
        obtain ⟨inv, hinvmem, hR⟩ := forall₂_mem_left hrel it hit
        refine ⟨inv, by rw [hstore]; exact List.mem_append_right _ hinvmem,
          hR.2.2.2.1, hR.2.2.2.2.2, ?_⟩
        rw [hR.1, hfst]
    have hexists2 : ∃ ids2,
        existingCustomerIds (listInvoices customers
          (runBatch l (batchItems (invoicesToCreate customers ids) numGen1)
            period due).1) period = Except.ok ids2 := by
      unfold existingCustomerIds
      apply mapCustomerIds_ok_of_all
      intro pi hpi
      obtain ⟨hlst, hpred⟩ := List.mem_filter.mp hpi
      obtain ⟨inv, hinv, rfl⟩ := mem_listInvoices.mp hlst
      rw [hstore] at hinv
      rcases List.mem_append.mp hinv with hold | hnew
      · have hpi1 : populateInvoice customers inv ∈
            (listInvoices customers l).filter (fun pi =>
              pi.inv.billingPeriod == period && pi.inv.status == Status.Pending) :=
          List.mem_filter.mpr ⟨mem_listInvoices.mpr ⟨inv, hold, rfl⟩, hpred⟩
        have hids' := hids
        unfold existingCustomerIds at hids'
        obtain ⟨i, _, hex⟩ := mapCustomerIds_ok_mem hids' _ hpi1
        exact ⟨i, hex⟩
      · obtain ⟨it, hit, hR⟩ := forall₂_mem_right hrel inv hnew
        have hit1 : it.1 ∈ invoicesToCreate customers ids := by
          rw [← batchItems_map_fst (invoicesToCreate customers ids) numGen1]
          exact List.mem_map_of_mem Prod.fst hit
        have hcust : it.1 ∈ customers := by
          unfold invoicesToCreate at hit1
          exact (List.mem_filter.mp hit1).1
        cases hfind : List.find? (fun cu => cu._id == inv.customerId) customers with
        | none =>
            exfalso
            have hnone := List.find?_eq_none.mp hfind it.1 hcust
            rw [hR.1] at hnone
            simp at hnone
        | some cu =>
            exact ⟨cu._id, by simp [extractCustomerId, populateInvoice, hfind]⟩
    obtain ⟨ids2, hids2⟩ := hexists2
    have htc2 : invoicesToCreate customers ids2 = [] := by
      unfold invoicesToCreate
      rw [List.filter_eq_nil_iff]
      intro c hc
      have hb : c._id ∈ ids2 := (blocked_iff hids2 c hc).mpr (hblocked c hc)
      simp [hb]
    have hgen2 := generate_eq_of_ok period due customers
      (runBatch l (batchItems (invoicesToCreate customers ids) numGen1) period due).1
      numGen2 ids2 hp hd hne hids2
    rw [htc2] at hgen2
    rw [if_pos (show ([] : List Customer).length = 0 from rfl)] at hgen2
    rw [hgen1]
    exact hgen2

/-- C4 witness: the two-customer roster over an empty ledger — the second
run answers `created = 0`, `skipped = 2` and leaves the store alone. -/
theorem C4_witness :
    generateMonthlyInvoices (some "2024-01") (some "2024-01-31")
        [sampleCustomerA, sampleCustomerB]
        (generateMonthlyInvoices (some "2024-01") (some "2024-01-31")
          [sampleCustomerA, sampleCustomerB] emptyLedger sampleNumGen).2
        sampleNumGen =
      (GenResponse.allCovered
        "All customers already have invoices for this billing period"
        0 ([sampleCustomerA, sampleCustomerB] : List Customer).length,
        (generateMonthlyInvoices (some "2024-01") (some "2024-01-31")
          [sampleCustomerA, sampleCustomerB] emptyLedger sampleNumGen).2) :=
  C4_second_run_all_skipped [sampleCustomerA, sampleCustomerB] emptyLedger
    "2024-01" "2024-01-31" sampleNumGen sampleNumGen []
    (by decide) (by decide) (by decide) rfl (fun _ => rfl)
    (by
      intro i j hi hj h
      have hi2 : i < 2 := by simpa using hi
      have hj2 : j < 2 := by simpa using hj
      interval_cases i <;> interval_cases j <;>
        first
        | rfl
        | (exfalso; revert h; decide))

/-- C5 counterexample: with both fields present, a non-empty roster, and
every customer already covered, the response is the early `res.json`
answer — HTTP 200 with no `invoices` field — not 201 as the claim states
for every success. -/
theorem C5_counterexample_all_covered_is_200 :
    (generateMonthlyInvoices (some "2024-01") (some "2024-01-31")
        [sampleCustomerA] ledgerPendingA sampleNumGen).1 =
      GenResponse.allCovered
        "All customers already have invoices for this billing period" 0 1 ∧
    genStatusCode
      (generateMonthlyInvoices (some "2024-01") (some "2024-01-31")
        [sampleCustomerA] ledgerPendingA sampleNumGen).1 ≠ 201 := by
  constructor
  · rfl
  · decide

/-- C5 (amended): missing `billingPeriod`/`dueDate` or an empty roster give
400; when every customer is already covered the response is 200 with
`{message, created : 0, skipped : |roster|}` and no `invoices` field;
otherwise the response is 201 with `{message, created, skipped, invoices}`
and `skipped = |roster| - created`. -/
theorem C5_response_shape :
    (∀ (billingPeriod dueDate : Option String) (customers : List Customer)
        (l : Ledger) (numGen : Nat → String),
      (isFalsyStr billingPeriod || isFalsyStr dueDate) = true →
      generateMonthlyInvoices billingPeriod dueDate customers l numGen =
        (GenResponse.badRequest "billingPeriod and dueDate are required", l)) ∧
    (∀ (period due : String) (l : Ledger) (numGen : Nat → String),
      period ≠ "" → due ≠ "" →
      generateMonthlyInvoices (some period) (some due) [] l numGen =
        (GenResponse.badRequest "No customers found", l)) ∧
    (∀ (period due : String) (customers : List Customer) (l : Ledger)
        (numGen : Nat → String) (ids : List Nat),
      period ≠ "" → due ≠ "" → customers ≠ [] →
      existingCustomerIds (listInvoices customers l) period = Except.ok ids →
      invoicesToCreate customers ids = [] →
      generateMonthlyInvoices (some period) (some due) customers l numGen =
        (GenResponse.allCovered
          "All customers already have invoices for this billing period"
          0 customers.length, l) ∧
      genStatusCode
        (generateMonthlyInvoices (some period) (some due) customers l numGen).1 =
        200) ∧
    (∀ (period due : String) (customers : List Customer) (l : Ledger)
        (numGen : Nat → String) (ids : List Nat),
      period ≠ "" → due ≠ "" → customers ≠ [] →
      existingCustomerIds (listInvoices customers l) period = Except.ok ids →
      invoicesToCreate customers ids ≠ [] →
      ∃ invs : List Invoice,
        (generateMonthlyInvoices (some period) (some due) customers l numGen).1 =
          GenResponse.batchDone
            ("Successfully created " ++ toString invs.length ++ " invoices")
            invs.length (customers.length - invs.length) invs ∧
        genStatusCode
          (generateMonthlyInvoices (some period) (some due) customers l numGen).1 =
          201) := by
  refine ⟨?_, ?_, ?_, ?_⟩
  · intro billingPeriod dueDate customers l numGen h
    unfold generateMonthlyInvoices
    rw [if_pos h]
  · intro period due l numGen hp hd
    have hpb : (period == "") = false := beq_eq_false_iff_ne.mpr hp
    have hdb : (due == "") = false := beq_eq_false_iff_ne.mpr hd
    simp [generateMonthlyInvoices, isFalsyStr, hpb, hdb]
  · intro period due customers l numGen ids hp hd hne hids htc
    have hgen := generate_eq_of_ok period due customers l numGen ids hp hd hne hids
    rw [htc] at hgen
    rw [if_pos (show ([] : List Customer).length = 0 from rfl)] at hgen
    refine ⟨hgen, ?_⟩
    rw [hgen]
    rfl
  · intro period due customers l numGen ids hp hd hne hids htc
    have hlen : (invoicesToCreate customers ids).length ≠ 0 :=
      fun hz => htc (List.length_eq_zero.mp hz)
    have hgen := generate_eq_of_ok period due customers l numGen ids hp hd hne hids
    rw [if_neg hlen] at hgen
    refine ⟨(runBatch l (batchItems (invoicesToCreate customers ids) numGen)
      period due).2, ?_, ?_⟩
    · rw [hgen]
    · rw [hgen]
      rfl

/-- C5 witness: both 400 paths and the 200 all-covered path at concrete
inputs, derived from the amended response-shape theorem. -/
theorem C5_witness :
    generateMonthlyInvoices none (some "2024-01-31") [sampleCustomerA]
        emptyLedger sampleNumGen =
      (GenResponse.badRequest "billingPeriod and dueDate are required",
        emptyLedger) ∧
    generateMonthlyInvoices (some "2024-01") (some "2024-01-31") [] emptyLedger
        sampleNumGen =
      (GenResponse.badRequest "No customers found", emptyLedger) ∧
    generateMonthlyInvoices (some "2024-01") (some "2024-01-31")
        [sampleCustomerA] ledgerPendingA sampleNumGen =
      (GenResponse.allCovered
        "All customers already have invoices for this billing period"
        0 ([sampleCustomerA] : List Customer).length, ledgerPendingA) :=
  ⟨C5_response_shape.1 none (some "2024-01-31") [sampleCustomerA] emptyLedger
      sampleNumGen rfl,
    C5_response_shape.2.1 "2024-01" "2024-01-31" emptyLedger sampleNumGen
      (by decide) (by decide),
    (C5_response_shape.2.2.1 "2024-01" "2024-01-31" [sampleCustomerA]
      ledgerPendingA sampleNumGen [1] (by decide) (by decide) (by decide)
      rfl rfl).1⟩

/-- C6 counterexample: a `paymentMethod` outside the enumeration is caught
by the controller's generic handler and answered 500, not 400 as the claim
states; the invoice is unmodified either way. -/
theorem C6_counterexample_invalid_method_is_500 :
    recordPayment ledgerPendingA 100 none (some "Bitcoin") none "2024-02-02" =
      (PayResponse.serverError "Failed to record payment", ledgerPendingA) ∧
    payStatusCode
      (recordPayment ledgerPendingA 100 none (some "Bitcoin") none
        "2024-02-02").1 ≠ 400 := by
  constructor
  · rfl
  · decide

/-- C6 (amended): a missing (falsy) `paymentMethod` is rejected with
400 before the store is touched; a present-but-invalid method makes the
Mongoose update validator throw, which the controller surfaces as the
generic 500 — in neither case is any invoice modified. -/
theorem C6_payment_method_validation :
    (∀ (l : Ledger) (id : Nat) (paymentDate notes pm : Option String)
        (now : String),
      isFalsyStr pm = true →
      recordPayment l id paymentDate pm notes now =
        (PayResponse.badRequest "Payment method is required", l)) ∧
    (∀ (l : Ledger) (id : Nat) (paymentDate notes : Option String)
        (pm : String) (now : String),
      pm ≠ "" → validPaymentMethod pm = false →
      recordPayment l id paymentDate (some pm) notes now =
        (PayResponse.serverError "Failed to record payment", l)) := by
  constructor
  · intro l id paymentDate notes pm now h
    unfold recordPayment
    rw [if_pos h]
  · intro l id paymentDate notes pm now hpm hval
    have hfal : isFalsyStr (some pm) = false := by
      simp [isFalsyStr, hpm]
    have hupd : updateInvoicePayment l id
        { paymentDate := some (if isFalsyStr paymentDate then now
            else paymentDate.getD now)
          paymentMethod := (some pm).getD ""
          notes := notes } now = Except.error () := by
      unfold updateInvoicePayment
      simp [hval]
    unfold recordPayment
    rw [if_neg (by rw [hfal]; exact Bool.false_ne_true)]
    simp only [hupd]

/-- C6 witness: the missing-method 400 path and the invalid-method 500 path
at concrete inputs, via the amended validation theorem. -/
theorem C6_witness :
    recordPayment ledgerPendingA 100 none none none "2024-02-02" =
      (PayResponse.badRequest "Payment method is required", ledgerPendingA) ∧
    recordPayment ledgerPendingA 100 none (some "Check") none "2024-02-02" =
      (PayResponse.serverError "Failed to record payment", ledgerPendingA) :=
  ⟨C6_payment_method_validation.1 ledgerPendingA 100 none none none
      "2024-02-02" rfl,
    C6_payment_method_validation.2 ledgerPendingA 100 none none "Check"
      "2024-02-02" (by decide) (by decide)⟩

theorem applyPayment_id (id : Nat) (p : PaymentData) (now : String) (inv : Invoice) :
    (applyPayment id p now inv)._id = inv._id := by
  unfold applyPayment
  split <;> rfl

theorem updateInvoicePayment_ok_some {l : Ledger} {id : Nat} {p : PaymentData}
    {now : String} {l2 : Ledger} {inv : Invoice}
    (h : updateInvoicePayment l id p now = Except.ok (l2, some inv)) :
    validPaymentMethod p.paymentMethod = true ∧
    inv._id = id ∧ inv.status = Status.Paid ∧
    inv.paymentDate = some (p.paymentDate.getD now) ∧
    inv.paymentMethod = some p.paymentMethod ∧ inv.notes = p.notes ∧
    inv ∈ l2.invoices ∧
    l2.invoices = l.invoices.map (applyPayment id p now) ∧
    l2.nextId = l.nextId := by
  unfold updateInvoicePayment at h
  cases hval : validPaymentMethod p.paymentMethod with
  | false =>
      rw [hval] at h
      simp at h
  | true =>
      rw [hval] at h
      simp only [Bool.not_true, Bool.false_eq_true, if_false,
        Except.ok.injEq, Prod.mk.injEq] at h
      obtain ⟨hl2, hfind⟩ := h
      subst hl2
      have hid' := List.find?_some hfind
      have hid : inv._id = id := beq_iff_eq.mp hid'
      have hmem : inv ∈ l.invoices.map (applyPayment id p now) :=
        List.mem_of_find?_eq_some hfind
      obtain ⟨i0, hi0, heq⟩ := List.mem_map.mp hmem
      cases hcase : (i0._id == id) with
      | false =>
          exfalso
          unfold applyPayment at heq
          rw [if_neg (by rw [hcase]; exact Bool.false_ne_true)] at heq
          rw [← heq] at hid
          rw [hid] at hcase
          simp at hcase
      | true =>
          unfold applyPayment at heq
          rw [if_pos hcase] at heq
          exact ⟨rfl, hid, by rw [← heq], by rw [← heq], by rw [← heq],
            by rw [← heq], hmem, rfl, rfl⟩

theorem updateInvoicePayment_found {l : Ledger} {id : Nat} (p : PaymentData)
    (now : String) (hval : validPaymentMethod p.paymentMethod = true)
    (j : Invoice) (hj : j ∈ l.invoices) (hjid : j._id = id) :
    ∃ l2 inv, updateInvoicePayment l id p now = Except.ok (l2, some inv) := by
  unfold updateInvoicePayment
  simp only [hval, Bool.not_true, Bool.false_eq_true, if_false]
  cases hfind : (l.invoices.map (applyPayment id p now)).find?
      (fun inv => inv._id == id) with
  | none =>
      exfalso
      have hnone := List.find?_eq_none.mp hfind (applyPayment id p now j)
        (List.mem_map_of_mem _ hj)
      apply hnone
      rw [applyPayment_id, hjid]
      simp
  | some inv =>
      exact ⟨_, inv, rfl⟩

theorem recordPayment_payOk {l l2 : Ledger} {id : Nat}
    {paymentDate paymentMethod notes : Option String} {now : String} {inv : Invoice}
    (h : recordPayment l id paymentDate paymentMethod notes now =
      (PayResponse.payOk inv, l2)) :
    isFalsyStr paymentMethod = false ∧
    updateInvoicePayment l id
      { paymentDate := some (if isFalsyStr paymentDate then now
          else paymentDate.getD now)
        paymentMethod := paymentMethod.getD ""
        notes := notes } now = Except.ok (l2, some inv) := by
  unfold recordPayment at h
  cases hf : isFalsyStr paymentMethod with
  | true =>
      rw [if_pos hf] at h
      simp at h
  | false =>
      rw [if_neg (by rw [hf]; exact Bool.false_ne_true)] at h
      refine ⟨rfl, ?_⟩
      cases hupd : updateInvoicePayment l id
          { paymentDate := some (if isFalsyStr paymentDate then now
              else paymentDate.getD now)
            paymentMethod := paymentMethod.getD ""
            notes := notes } now with
      | error e =>
          rw [hupd] at h
          simp at h
      | ok r =>
          obtain ⟨l2', r'⟩ := r
          cases r' with
          | none =>
              rw [hupd] at h
              simp at h
          | some i =>
              rw [hupd] at h
              simp only [Prod.mk.injEq, PayResponse.payOk.injEq] at h
              rw [h.1, h.2]

/-- C7: `recordPayment` is a one-way transition — a successful call leaves
the invoice `Paid` with `paymentDate` the supplied date (or the current
time when omitted); a second call on the now-`Paid` invoice still succeeds
and overwrites the payment details; and no ledger operation
(`createInvoice`, `updateInvoicePayment`, `deleteInvoice`) ever moves a
`Paid` invoice back to `Pending`. -/
theorem C7_payment_one_way :
    (∀ (l : Ledger) (id : Nat) (paymentDate paymentMethod notes : Option String)
        (now : String) (inv : Invoice) (l2 : Ledger),
      recordPayment l id paymentDate paymentMethod notes now =
        (PayResponse.payOk inv, l2) →
      inv.status = Status.Paid ∧
      inv.paymentDate = some (if isFalsyStr paymentDate then now
        else paymentDate.getD now) ∧
      inv.paymentMethod = paymentMethod ∧
      inv.notes = notes ∧
      inv._id = id ∧
      (∀ (pd2 pm2 n2 : Option String) (now2 : String),
        isFalsyStr pm2 = false → validPaymentMethod (pm2.getD "") = true →
        ∃ inv2 l3,
          recordPayment l2 id pd2 pm2 n2 now2 = (PayResponse.payOk inv2, l3) ∧
          inv2.status = Status.Paid ∧
          inv2.paymentDate = some (if isFalsyStr pd2 then now2
            else pd2.getD now2) ∧
          inv2.paymentMethod = pm2 ∧ inv2.notes = n2)) ∧
    (∀ (l : Ledger) (d : InvoiceData) (l2 : Ledger) (inv : Invoice),
      createInvoice l d = Except.ok (l2, inv) →
      ∀ j ∈ l.invoices, j ∈ l2.invoices) ∧
    (∀ (l : Ledger) (id : Nat) (p : PaymentData) (now : String) (l2 : Ledger)
        (r : Option Invoice),
      updateInvoicePayment l id p now = Except.ok (l2, r) →
      ∀ j ∈ l.invoices, j.status = Status.Paid →
        ∃ j2 ∈ l2.invoices, j2._id = j._id ∧ j2.status = Status.Paid) ∧
    (∀ (l : Ledger) (id : Nat), ∀ j ∈ (deleteInvoice l id).1.invoices,
      j ∈ l.invoices) := by
  refine ⟨?_, ?_, ?_, ?_⟩
  · intro l id paymentDate paymentMethod notes now inv l2 h
    obtain ⟨hf, hupd⟩ := recordPayment_payOk h
    obtain ⟨_, hid, hstat, hdate, hpm, hnotes, hmem, _, _⟩ :=
      updateInvoicePayment_ok_some hupd
    cases paymentMethod with
    | none => simp [isFalsyStr] at hf
    | some pm =>
        refine ⟨hstat, hdate, hpm, hnotes, hid, ?_⟩
        intro pd2 pm2 n2 now2 hf2 hval2
        obtain ⟨l3, inv2, hupd2⟩ :=
          updateInvoicePayment_found
            { paymentDate := some (if isFalsyStr pd2 then now2 else pd2.getD now2)
              paymentMethod := pm2.getD ""
              notes := n2 } now2 hval2 inv hmem hid
        have hcall : recordPayment l2 id pd2 pm2 n2 now2 =
            (PayResponse.payOk inv2, l3) := by
          unfold recordPayment
          rw [if_neg (by rw [hf2]; exact Bool.false_ne_true)]
          rw [hupd2]
        obtain ⟨_, _, hstat2, hdate2, hpm2, hnotes2, _, _, _⟩ :=
          updateInvoicePayment_ok_some hupd2
        cases pm2 with
        | none => simp [isFalsyStr] at hf2
        | some q => exact ⟨inv2, l3, hcall, hstat2, hdate2, hpm2, hnotes2⟩
  · intro l d l2 inv h j hj
    unfold createInvoice at h
    cases hnum : hasInvoiceNumber l.invoices d.invoiceNumber with
    | true =>
        rw [hnum] at h
        simp at h
    | false =>
        rw [hnum] at h
        simp only [Bool.false_eq_true, if_false, Except.ok.injEq,
          Prod.mk.injEq] at h
        obtain ⟨hl2, _⟩ := h
        rw [← hl2]
        exact List.mem_append_left _ hj
  · intro l id p now l2 r h j hj hpaid
    unfold updateInvoicePayment at h
    cases hval : validPaymentMethod p.paymentMethod with
    | false =>
        rw [hval] at h
        simp at h
    | true =>
        rw [hval] at h
        simp only [Bool.not_true, Bool.false_eq_true, if_false,
          Except.ok.injEq, Prod.mk.injEq] at h
        obtain ⟨hl2, _⟩ := h
        refine ⟨applyPayment id p now j, ?_, applyPayment_id id p now j, ?_⟩
        · rw [← hl2]
          exact List.mem_map_of_mem _ hj
        · unfold applyPayment
          split
          · rfl
          · exact hpaid
  · intro l id j hj
    unfold deleteInvoice at hj
    cases hfind : l.invoices.find? (fun inv => inv._id == id) with
    | none =>
        rw [hfind] at hj
        exact hj
    | some inv =>
        rw [hfind] at hj
        exact (List.mem_filter.mp hj).1

/-- C7 witness: paying pending invoice 100 with "Cash" succeeds and yields
the expected `Paid` record; re-paying the already-`Paid` invoice with
"Online Payment" succeeds again and overwrites the details. -/
theorem C7_witness :
    paidInvoiceA.status = Status.Paid ∧
    paidInvoiceA.paymentDate = some "2024-02-01" ∧
    paidInvoiceA.paymentMethod = some "Cash" ∧
    (∃ inv2 l3,
      recordPayment ledgerPaidA 100 none (some "Online Payment") none
        "2024-03-05" = (PayResponse.payOk inv2, l3) ∧
      inv2.status = Status.Paid ∧
      inv2.paymentDate = some (if isFalsyStr none then "2024-03-05"
        else Option.getD none "2024-03-05") ∧
      inv2.paymentMethod = some "Online Payment" ∧ inv2.notes = none) := by
  have h := C7_payment_one_way.1 ledgerPendingA 100 (some "2024-02-01")
    (some "Cash") (some "ok") "2024-02-02" paidInvoiceA ledgerPaidA rfl
  exact ⟨h.1, h.2.1, h.2.2.1, h.2.2.2.2.2 none (some "Online Payment") none
    "2024-03-05" rfl rfl⟩

/-- C8: no two invoices ever share an `invoiceNumber` — creating an invoice
under an existing number fails with the duplicate-key error (surfaced by
`addInvoice` as 400 "Invoice number already exists") without touching the
store, and a successful creation preserves distinctness of the stored
numbers. -/
theorem C8_invoice_number_unique :
    (∀ (l : Ledger) (d : InvoiceData),
      hasInvoiceNumber l.invoices d.invoiceNumber = true →
      createInvoice l d = Except.error ()) ∧
    (∀ (l : Ledger) (customerId : Option Nat) (amount : Option Int)
        (billingPeriod dueDate : Option String) (num : String),
      customerId.isNone = false → isFalsyNum amount = false →
      isFalsyStr billingPeriod = false → isFalsyStr dueDate = false →
      hasInvoiceNumber l.invoices num = true →
      addInvoice l customerId amount billingPeriod dueDate num =
        (AddResponse.badRequest "Invoice number already exists", l)) ∧
    (∀ (l : Ledger) (d : InvoiceData) (l2 : Ledger) (inv : Invoice),
      createInvoice l d = Except.ok (l2, inv) →
      (l.invoices.map Invoice.invoiceNumber).Nodup →
      (l2.invoices.map Invoice.invoiceNumber).Nodup) := by
  refine ⟨?_, ?_, ?_⟩
  · intro l d h
    unfold createInvoice
    rw [if_pos h]
  · intro l customerId amount billingPeriod dueDate num h1 h2 h3 h4 hnum
    have hcr : createInvoice l
        { customerId := customerId.getD 0
          invoiceNumber := num
          amount := amount.getD 0
          billingPeriod := billingPeriod.getD ""
          dueDate := dueDate.getD ""
          status := Status.Pending } = Except.error () := by
      unfold createInvoice
      rw [if_pos hnum]
    unfold addInvoice
    rw [if_neg (by rw [h1, h2, h3, h4]; simp)]
    simp only [hcr]
  · intro l d l2 inv h hnd
    unfold createInvoice at h
    cases hnum : hasInvoiceNumber l.invoices d.invoiceNumber with
    | true =>
        rw [hnum] at h
        simp at h
    | false =>
        rw [hnum] at h
        simp only [Bool.false_eq_true, if_false, Except.ok.injEq,
          Prod.mk.injEq] at h
        obtain ⟨hl2, _⟩ := h
        rw [← hl2]
        rw [List.map_append]
        refine List.Nodup.append hnd (List.nodup_singleton _) ?_
        intro x hx hx2
        rcases List.mem_singleton.mp hx2 with rfl
        obtain ⟨i, hi, hieq⟩ := List.mem_map.mp hx
        have hcontra : hasInvoiceNumber l.invoices d.invoiceNumber = true := by
          unfold hasInvoiceNumber
          rw [List.any_eq_true]
          exact ⟨i, hi, by simp [hieq, storedInvoice]⟩
        rw [hnum] at hcontra
        cases hcontra

/-- C8 witness: "INV-202312-0001" is already stored — creating it again
fails with the duplicate-key error and `addInvoice` answers the 400 with
the store untouched. -/
theorem C8_witness :
    createInvoice ledgerPendingA
        (monthlyInvoiceData sampleCustomerB "INV-202312-0001" "2024-01"
          "2024-01-31") = Except.error () ∧
    addInvoice ledgerPendingA (some 2) (some 1100) (some "2024-01")
        (some "2024-01-31") "INV-202312-0001" =
      (AddResponse.badRequest "Invoice number already exists", ledgerPendingA) :=
  ⟨C8_invoice_number_unique.1 ledgerPendingA
      (monthlyInvoiceData sampleCustomerB "INV-202312-0001" "2024-01"
        "2024-01-31") (by decide),
    C8_invoice_number_unique.2.1 ledgerPendingA (some 2) (some 1100)
      (some "2024-01") (some "2024-01-31") "INV-202312-0001"
      rfl rfl rfl rfl (by decide)⟩

/-- C9: every customer record produced by `createCustomer` or
`updateCustomer` carries exactly the bandwidth and fee the fixed plan table
assigns to its plan type (Basic 10/800, Standard 50/1100, Premium
100/1400); caller-supplied bandwidth or fee values are ignored, and a plan
change recomputes both derived fields. -/
theorem C9_plan_derived_fields :
    (PLAN_CONFIG "Basic" = some { bandwidthMbps := 10, monthlyFee := 800 } ∧
      PLAN_CONFIG "Standard" = some { bandwidthMbps := 50, monthlyFee := 1100 } ∧
      PLAN_CONFIG "Premium" = some { bandwidthMbps := 100, monthlyFee := 1400 }) ∧
    (∀ (newId : Nat) (data : CustomerInput) (plan : PlanConfig),
      PLAN_CONFIG data.planType = some plan →
      ∃ c, createCustomer newId data = Except.ok c ∧
        c.planType = data.planType ∧ c.bandwidthMbps = plan.bandwidthMbps ∧
        c.monthlyFee = plan.monthlyFee) ∧
    (∀ (newId : Nat) (data : CustomerInput) (b f : Option Int),
      createCustomer newId { data with bandwidthMbps := b, monthlyFee := f } =
        createCustomer newId data) ∧
    (∀ (customers : List Customer) (id : Nat) (data : CustomerInput)
        (plan : PlanConfig) (upd : List Customer) (c : Customer),
      PLAN_CONFIG data.planType = some plan →
      updateCustomer customers id data = Except.ok (upd, some c) →
      c.planType = data.planType ∧ c.bandwidthMbps = plan.bandwidthMbps ∧
      c.monthlyFee = plan.monthlyFee) := by
  refine ⟨⟨rfl, rfl, rfl⟩, ?_, ?_, ?_⟩
  · intro newId data plan hplan
    unfold createCustomer
    rw [hplan]
    exact ⟨_, rfl, rfl, rfl, rfl⟩
  · intro newId data b f
    unfold createCustomer
    rfl
  · intro customers id data plan upd c hplan h
    unfold updateCustomer at h
    rw [hplan] at h
    simp only [Except.ok.injEq, Prod.mk.injEq] at h
    obtain ⟨_, hfind⟩ := h
    have hcid' := List.find?_some hfind
    have hcid : c._id = id := beq_iff_eq.mp hcid'
    have hmem := List.mem_of_find?_eq_some hfind
    obtain ⟨c0, hc0, heq⟩ := List.mem_map.mp hmem
    cases hcase : (c0._id == id) with
    | false =>
        exfalso
        rw [if_neg (by rw [hcase]; exact Bool.false_ne_true)] at heq
        rw [← heq] at hcid
        rw [hcid] at hcase
        simp at hcase
    | true =>
        rw [if_pos hcase] at heq
        exact ⟨by rw [← heq], by rw [← heq], by rw [← heq]⟩

/-- C9 witness: `sampleInput` asks for the Basic plan while supplying bogus
bandwidth 999 and fee 1; the created record carries the table values 10
and 800. -/
theorem C9_witness :
    ∃ c, createCustomer 7 sampleInput = Except.ok c ∧
      c.planType = "Basic" ∧ c.bandwidthMbps = 10 ∧ c.monthlyFee = 800 :=
  C9_plan_derived_fields.2.1 7 sampleInput
    { bandwidthMbps := 10, monthlyFee := 800 } rfl

/-- C10: an invoice that is `Pending` for the target period but references
a deleted customer makes `populate` yield `null`; building the
already-invoiced set then throws (reading `._id` of `null` before the
optional chaining applies), so the whole request answers the generic 500
and no invoice is issued for any customer. -/
theorem C10_orphan_pending_invoice_500
    (customers : List Customer) (l : Ledger) (period due : String)
    (numGen : Nat → String) (inv : Invoice)
    (hp : period ≠ "") (hd : due ≠ "") (hne : customers ≠ [])
    (hinv : inv ∈ l.invoices) (hper : inv.billingPeriod = period)
    (hst : inv.status = Status.Pending)
    (horph : ∀ c ∈ customers, c._id ≠ inv.customerId) :
    generateMonthlyInvoices (some period) (some due) customers l numGen =
      (GenResponse.serverError "Failed to generate monthly invoices", l) := by
  have herr : existingCustomerIds (listInvoices customers l) period =
      Except.error () := by
    unfold existingCustomerIds
    apply mapCustomerIds_error_of_mem _ (populateInvoice customers inv)
    · exact List.mem_filter.mpr
        ⟨mem_listInvoices.mpr ⟨inv, hinv, rfl⟩, by simp [populateInvoice, hper, hst]⟩
    · have hfind : List.find? (fun cu => cu._id == inv.customerId) customers =
          none :=
        List.find?_eq_none.mpr (fun c hc => by simp [horph c hc])
      simp only [populateInvoice, extractCustomerId, hfind]
  have hpb : (period == "") = false := beq_eq_false_iff_ne.mpr hp
  have hdb : (due == "") = false := beq_eq_false_iff_ne.mpr hd
  have hlen : (customers.length == 0) = false := by
    rw [beq_eq_false_iff_ne]
    intro hc
    exact hne (List.length_eq_zero.mp hc)
  simp only [generateMonthlyInvoices, isFalsyStr, hpb, hdb, Bool.or_self,
    Bool.false_or, Option.getD_some, hlen, herr, Bool.false_eq_true, if_false]

/-- C10 witness: the orphaned pending invoice for customer id 77 — absent
from the roster — makes the whole generation request answer 500 with the
store untouched. -/
theorem C10_witness :
    generateMonthlyInvoices (some "2024-01") (some "2024-01-31")
        [sampleCustomerA] ledgerOrphan sampleNumGen =
      (GenResponse.serverError "Failed to generate monthly invoices",
        ledgerOrphan) :=
  C10_orphan_pending_invoice_500 [sampleCustomerA] ledgerOrphan "2024-01"
    "2024-01-31" sampleNumGen orphanPendingInvoice (by decide) (by decide)
    (by decide) (by decide) rfl rfl (by decide)

end Billing
